import Mathlib

/-!
Shallow embedding of the usbguard rule-parser semantic actions and the
Linux device manager (`RuleParser.hpp` actions, `LinuxDeviceManager.cpp`,
`FixedStateCondition.cpp`), together with theorems settling the frozen
specification claims.

Pure functions of the source become Lean functions; the stateful manager
code becomes explicit state passing over a `ManagerState`, with backend
writes, per-device mutex lock/unlock, cached-target updates and outbound
notifications recorded in an event trace.  Fallible code (C++ exceptions)
returns `Except String`.
-/

set_option autoImplicit false

deriving instance DecidableEq for Except

/-- The `Rule::Target` from the source. -/
inductive Target where
  | Allow
  | Block
  | Reject
  | Match
  | Device
  | Unknown
  deriving DecidableEq, Repr

/-- The `Rule::SetOperator` (multiset operators of attribute value sets). -/
inductive SetOperator where
  | Equals
  | EqualsOrdered
  | OneOf
  | NoneOf
  | AllOf
  | MatchAny
  deriving DecidableEq, Repr

/-- The `USBInterfaceType`: a (class, subclass, protocol) triple where each
component is either a concrete byte (`some b`) or the wildcard `*`
(`none`). -/
structure USBInterfaceType where
  ifClass : Option Nat
  ifSubClass : Option Nat
  ifProtocol : Option Nat
  deriving DecidableEq, Repr

/-- One component of an applies-to test: a wildcard on the left applies to
anything; a concrete byte on the left must equal the right component. -/
def componentAppliesTo : Option Nat → Option Nat → Bool
  | none, _ => true
  | some x, some y => x == y
  | some _, none => false

/-- Modelled from the spec: `USBInterfaceType::appliesTo` is not under
`src/` (only its caller `LinuxDevice::isController` is).  Spec §4.B:
`a.applies_to(b)` returns true iff for each of (class, subclass,
protocol) either `a`'s component is the wildcard or it equals `b`'s
corresponding component. -/
def USBInterfaceType.appliesTo (a b : USBInterfaceType) : Bool :=
  componentAppliesTo a.ifClass b.ifClass &&
  componentAppliesTo a.ifSubClass b.ifSubClass &&
  componentAppliesTo a.ifProtocol b.ifProtocol

/-- The hub pattern `USBInterfaceType("09:00:*")` used by
`LinuxDevice::isController`. -/
def hub_interface : USBInterfaceType :=
  { ifClass := some 0x09, ifSubClass := some 0x00, ifProtocol := none }

/-- The fields of `LinuxDevice` (a `Device` plus its `_syspath`) that the
manager code reads and writes. -/
structure LinuxDevice where
  id : Nat
  syspath : String
  port : String
  name : String
  serial : String
  interfaceTypes : List USBInterfaceType
  target : Target
  deriving DecidableEq, Repr

/-- The `LinuxDevice::isController`: false when `getPort().substr(0,3)` is not
`"usb"` or the device does not have exactly one interface type; otherwise
`hub_interface.appliesTo` applied to the sole interface type. -/
def LinuxDevice.isController (d : LinuxDevice) : Bool :=
  if d.port.take 3 != "usb" || d.interfaceTypes.length != 1 then
    false
  else
    match d.interfaceTypes with
    | [t] => hub_interface.appliesTo t
    | _ => false

/-- The `FixedStateCondition`: a rule condition whose state is fixed at
construction.  `name` and `negated` live in the `RuleCondition` base. -/
structure FixedStateCondition where
  name : String
  negated : Bool
  state : Bool
  deriving DecidableEq, Repr

/-- The `FixedStateCondition(bool state, bool negated)` constructor: the
base `RuleCondition` is given the name `"true"` or `"false"` according to
`state`. -/
def FixedStateCondition.make (state negated : Bool) : FixedStateCondition :=
  { name := if state then "true" else "false", negated := negated, state := state }

/-- Outbound notification kinds raised by the manager
(`DevicePresent`, `DeviceInserted`, ..., `DeviceRejected`). -/
inductive NotifyKind where
  | Present
  | Inserted
  | Removed
  | Allowed
  | Blocked
  | Rejected
  deriving DecidableEq, Repr

/-- Observable events of a manager operation, in program order: per-device
mutex acquisition and release, a `sysioWrite` of a value to a sysfs path,
the cached-target update `Device::setTarget`, and an outbound
notification. -/
inductive Evt where
  | lock (id : Nat)
  | unlock (id : Nat)
  | sysWrite (path : String) (value : Nat)
  | setTarget (id : Nat) (target : Target)
  | notify (kind : NotifyKind) (id : Nat)
  deriving DecidableEq, Repr

/-- Lookup in an association list modelling a `std::map`. -/
def alistLookup {α β : Type} [DecidableEq α] : List (α × β) → α → Option β
  | [], _ => none
  | (k, v) :: rest, key => if k = key then some v else alistLookup rest key

/-- The `map[key] = value` on a `std::map`: the key is bound to `value` and any
previous binding is gone. -/
def alistSet {α β : Type} [DecidableEq α] (l : List (α × β)) (key : α) (value : β) :
    List (α × β) :=
  (key, value) :: l.filter (fun p => !(decide (p.1 = key)))

/-- The `map.erase(key)` on a `std::map`: every binding of `key` is gone. -/
def alistErase {α β : Type} [DecidableEq α] (l : List (α × β)) (key : α) :
    List (α × β) :=
  l.filter (fun p => !(decide (p.1 = key)))

/-- The manager's maps: the base `DeviceManager`'s ID → device map and
`LinuxDeviceManager::_syspath_map` (syspath → ID). -/
structure ManagerState where
  devices : List (Nat × LinuxDevice)
  syspathMap : List (String × Nat)
  deriving DecidableEq, Repr

/-- Modelled from the spec: the base `DeviceManager::getDevice` is not
under `src/`; spec §4.F has the manager own the ID→device map, and policy
application looks the device up by ID. -/
def getDevice (st : ManagerState) (id : Nat) : Except String LinuxDevice :=
  match alistLookup st.devices id with
  | some d => Except.ok d
  | none => Except.error "device not found"

/-- The sysfs file and value written for a target by
`LinuxDeviceManager::sysioApplyTarget`; `none` for targets that raise
"Unknown rule target in applyDevicePolicy". -/
def targetFileValue : Target → Option (String × Nat)
  | Target.Allow => some ("authorized", 1)
  | Target.Block => some ("authorized", 0)
  | Target.Reject => some ("remove", 1)
  | _ => none

/-- The `LinuxDeviceManager::sysioApplyTarget`: translate the target to a
(file, value) pair and perform `sysioWrite(sys_path + "/" + file, value)`.
The environment parameter `writeOk` tells whether a given write succeeds;
the attempted write is recorded in the trace either way, and a failing
write surfaces as an error (`BackendIO`). -/
def sysioApplyTarget (writeOk : String → Nat → Bool) (sys_path : String)
    (target : Target) : Except String Unit × List Evt :=
  match targetFileValue target with
  | none => (Except.error "Unknown rule target in applyDevicePolicy", [])
  | some (file, value) =>
    let path := sys_path ++ "/" ++ file
    if writeOk path value then
      (Except.ok (), [Evt.sysWrite path value])
    else
      (Except.error "sysio write failed", [Evt.sysWrite path value])

/-- The `LinuxDeviceManager::applyDevicePolicy`: look the device up by ID,
lock its mutex, run `sysioApplyTarget` on its syspath, and on success set
the device's cached target; the mutex is released on both the normal and
the unwinding path.  On failure the error is surfaced and the state is
unchanged. -/
def applyDevicePolicy (writeOk : String → Nat → Bool) (st : ManagerState)
    (id : Nat) (target : Target) :
    Except String LinuxDevice × ManagerState × List Evt :=
  match getDevice st id with
  | Except.error e => (Except.error e, st, [])
  | Except.ok device =>
    let res := sysioApplyTarget writeOk device.syspath target
    match res.1 with
    | Except.error e =>
      (Except.error e, st, Evt.lock id :: res.2 ++ [Evt.unlock id])
    | Except.ok _ =>
      let device' := { device with target := target }
      (Except.ok device',
       { st with devices := alistSet st.devices id device' },
       Evt.lock id :: res.2 ++ [Evt.setTarget id target, Evt.unlock id])

/-- The `LinuxDeviceManager::allowDevice`: apply the Allow policy, then raise
the `DeviceAllowed` hook.  An exception from `applyDevicePolicy`
propagates before the hook is reached. -/
def allowDevice (writeOk : String → Nat → Bool) (st : ManagerState) (id : Nat) :
    Except String LinuxDevice × ManagerState × List Evt :=
  match applyDevicePolicy writeOk st id Target.Allow with
  | (Except.ok device, st', tr) =>
    (Except.ok device, st', tr ++ [Evt.notify NotifyKind.Allowed device.id])
  | (Except.error e, st', tr) => (Except.error e, st', tr)

/-- The `LinuxDeviceManager::blockDevice`: apply the Block policy, then raise
the `DeviceBlocked` hook. -/
def blockDevice (writeOk : String → Nat → Bool) (st : ManagerState) (id : Nat) :
    Except String LinuxDevice × ManagerState × List Evt :=
  match applyDevicePolicy writeOk st id Target.Block with
  | (Except.ok device, st', tr) =>
    (Except.ok device, st', tr ++ [Evt.notify NotifyKind.Blocked device.id])
  | (Except.error e, st', tr) => (Except.error e, st', tr)

/-- The `LinuxDeviceManager::rejectDevice`: apply the Reject policy, then
raise the `DeviceRejected` hook. -/
def rejectDevice (writeOk : String → Nat → Bool) (st : ManagerState) (id : Nat) :
    Except String LinuxDevice × ManagerState × List Evt :=
  match applyDevicePolicy writeOk st id Target.Reject with
  | (Except.ok device, st', tr) =>
    (Except.ok device, st', tr ++ [Evt.notify NotifyKind.Rejected device.id])
  | (Except.error e, st', tr) => (Except.error e, st', tr)

/-- The `LinuxDeviceManager::insertDevice`: the base
`DeviceManager::insertDevice` registers the device under its ID
(modelled from the spec: the base class is not under `src/`; spec §4.F
records the device in the manager's maps), then under the device's mutex
`_syspath_map[syspath] = id`. -/
def insertDevice (st : ManagerState) (device : LinuxDevice) :
    ManagerState × List Evt :=
  let st1 := { st with devices := alistSet st.devices device.id device }
  ({ st1 with syspathMap := alistSet st1.syspathMap device.syspath device.id },
   [Evt.lock device.id, Evt.unlock device.id])

/-- The `LinuxDeviceManager::processDeviceInsertion`: construct a
`LinuxDevice` (the construction outcome is the `ctor` parameter), and on
success register it and raise `DeviceInserted`; on exception, log and
fall back to `sysioApplyTarget(sys_path, Reject)`. -/
def processDeviceInsertion (writeOk : String → Nat → Bool) (st : ManagerState)
    (sys_path : String) (ctor : Except String LinuxDevice) :
    Except String Unit × ManagerState × List Evt :=
  match ctor with
  | Except.ok device =>
    let r := insertDevice st device
    (Except.ok (), r.1, r.2 ++ [Evt.notify NotifyKind.Inserted device.id])
  | Except.error _ =>
    let r := sysioApplyTarget writeOk sys_path Target.Reject
    (r.1, st, r.2)

/-- The `LinuxDeviceManager::processDevicePresence`: same as insertion except
that on exception the device is only logged, never rejected. -/
def processDevicePresence (st : ManagerState) (sys_path : String)
    (ctor : Except String LinuxDevice) :
    Except String Unit × ManagerState × List Evt :=
  match ctor with
  | Except.ok device =>
    let r := insertDevice st device
    (Except.ok (), r.1, r.2 ++ [Evt.notify NotifyKind.Present device.id])
  | Except.error _ => (Except.ok (), st, [])

/-- Modelled from the spec: the base `DeviceManager::removeDevice(id)` is
not under `src/`; spec §4.F's removal path removes the device from the
manager's maps and returns its snapshot, and an unknown ID is an error
that leaves the maps unchanged. -/
def baseRemoveDevice (st : ManagerState) (id : Nat) :
    Except String LinuxDevice × ManagerState :=
  match alistLookup st.devices id with
  | none => (Except.error "device not found", st)
  | some d => (Except.ok d, { st with devices := alistErase st.devices id })

/-- The `LinuxDeviceManager::removeDevice(syspath)`: look the syspath up in
`_syspath_map`; if absent, throw with the map unchanged; otherwise remove
the device by ID through the base class, erase the syspath entry, and
return the device.  An exception from the base removal propagates before
the erase. -/
def removeDevice (st : ManagerState) (syspath : String) :
    Except String LinuxDevice × ManagerState :=
  match alistLookup st.syspathMap syspath with
  | none => (Except.error "Unknown device, cannot remove from syspath map", st)
  | some id =>
    match baseRemoveDevice st id with
    | (Except.error e, st') => (Except.error e, st')
    | (Except.ok device, st') =>
      (Except.ok device, { st' with syspathMap := alistErase st'.syspathMap syspath })

/-- The system-wide default authorization state written through
`sysioSetAuthorizedDefault` (true = new devices authorized). -/
structure SysDefaultWorld where
  authorizedDefault : Bool
  deriving DecidableEq, Repr

/-- The `sysioSetAuthorizedDefault(v)`: overwrite the system-wide default. -/
def sysioSetAuthorizedDefault (w : SysDefaultWorld) (v : Bool) : SysDefaultWorld :=
  { w with authorizedDefault := v }

/-- The `LinuxDeviceManager::setDefaultBlockedState(state)`: calls
`sysioSetAuthorizedDefault(!state)`. -/
def setDefaultBlockedState (w : SysDefaultWorld) (state : Bool) : SysDefaultWorld :=
  sysioSetAuthorizedDefault w (!state)

/-- The `LinuxDeviceManager` constructor's effect on the system-wide
default: `setDefaultBlockedState(true)`.  Nothing of the prior state is
recorded anywhere in the manager. -/
def managerStartupDefault (w : SysDefaultWorld) : SysDefaultWorld :=
  setDefaultBlockedState w true

/-- The `LinuxDeviceManager` destructor's effect on the system-wide
default: `setDefaultBlockedState(false)` unconditionally (the source
carries `// FIXME: Set to previous state` on this line). -/
def managerShutdownDefault (w : SysDefaultWorld) : SysDefaultWorld :=
  setDefaultBlockedState w false

/-- State visible to `LinuxDeviceManager::thread`'s main loop: the stop
flag of `_thread`, the eventfd counter behind `_event_fd` (nonzero makes
the fd readable), and the number of queued udev monitor events (nonzero
makes the monitor fd readable). -/
structure WorkerState where
  stopRequested : Bool
  eventfdCounter : Nat
  pendingUdev : Nat
  deriving DecidableEq, Repr

/-- One iteration of the `while (!_thread.stopRequested())` body of
`LinuxDeviceManager::thread`: `select` marks the event fd readable iff
the eventfd counter is nonzero and the monitor fd readable iff udev
events are queued.  If the event fd is readable the body executes
`continue` — the eventfd is never `read`, so its counter is untouched.
Otherwise a readable monitor fd has one event drained by
`udevReceiveDevice`; a timeout also just continues. -/
def threadIter (s : WorkerState) : WorkerState :=
  if s.eventfdCounter > 0 then
    s
  else if s.pendingUdev > 0 then
    { s with pendingUdev := s.pendingUdev - 1 }
  else
    s

/-- The worker loop with fuel: before each iteration the stop flag is
checked; `some s` means the loop exited (with final state `s`) within the
given number of stop-flag checks, `none` that it was still running. -/
def threadLoop : Nat → WorkerState → Option WorkerState
  | 0, _ => none
  | n + 1, s => if s.stopRequested then some s else threadLoop n (threadIter s)

/-- The `LinuxDeviceManager::stop`: request the thread to stop, then write 1
to the eventfd to wake the worker out of `select`. -/
def managerStop (s : WorkerState) : WorkerState :=
  { s with stopRequested := true, eventfdCounter := s.eventfdCounter + 1 }

/-- The `USBDeviceID` as produced by the rule parser: a (vendor, product)
pair of strings. -/
structure USBDeviceID where
  vendor : String
  product : String
  deriving DecidableEq, Repr

/-- One attribute of a `Rule` as maintained by the parser actions: a set
operator plus an ordered list of values.  `empty()` in the source tests
whether the value list is empty; `append` adds one value;
`setSetOperator` stores the operator. -/
structure RuleAttribute (α : Type) where
  op : SetOperator
  values : List α
  deriving DecidableEq, Repr

/-- The `Rule::Attribute::empty()`: no value has been appended. -/
def RuleAttribute.isUnset {α : Type} (a : RuleAttribute α) : Bool :=
  a.values.isEmpty

/-- The `Rule::Attribute::append(value)`. -/
def RuleAttribute.append {α : Type} (a : RuleAttribute α) (v : α) : RuleAttribute α :=
  { a with values := a.values ++ [v] }

/-- The `Rule::Attribute::setSetOperator(op)`. -/
def RuleAttribute.setSetOperator {α : Type} (a : RuleAttribute α) (o : SetOperator) :
    RuleAttribute α :=
  { a with op := o }

/-- An attribute with no operator set and no values, the state of every
attribute of a freshly constructed `Rule`. -/
def RuleAttribute.init {α : Type} : RuleAttribute α :=
  { op := SetOperator.Equals, values := [] }

/-- The `Rule` object mutated by the parser's semantic actions: the
target, the bare device-ID sugar, and the eight named attributes
(`attributeName`, ..., `attributeConditions`; conditions are kept by
their source-text name). -/
structure ParsedRule where
  target : Target
  deviceID : Option USBDeviceID
  attributeName : RuleAttribute String
  attributeHash : RuleAttribute String
  attributeParentHash : RuleAttribute String
  attributeSerial : RuleAttribute String
  attributeViaPort : RuleAttribute String
  attributeWithInterface : RuleAttribute USBInterfaceType
  attributeDeviceID : RuleAttribute USBDeviceID
  attributeConditions : RuleAttribute String
  deriving DecidableEq, Repr

/-- The rule right after the target action ran: target set, every
attribute empty. -/
def initRule (target : Target) : ParsedRule :=
  { target := target
    deviceID := none
    attributeName := RuleAttribute.init
    attributeHash := RuleAttribute.init
    attributeParentHash := RuleAttribute.init
    attributeSerial := RuleAttribute.init
    attributeViaPort := RuleAttribute.init
    attributeWithInterface := RuleAttribute.init
    attributeDeviceID := RuleAttribute.init
    attributeConditions := RuleAttribute.init }

/-- The named attribute keywords of the grammar (`str_name`, `str_hash`,
`str_parent_hash`, `str_serial`, `str_via_port`, `str_with_interface`,
`str_id`, `str_if`). -/
inductive AttrKind where
  | name
  | hash
  | parentHash
  | serial
  | viaPort
  | withInterface
  | idAttr
  | conditions
  deriving DecidableEq, Repr

/-- One attribute clause of a rule text, as the grammar reduces it: the
keyword (with the byte position `pos` of its occurrence), an optional
explicit set operator, and the value list (the grammar guarantees at
least one value).  String-valued attributes carry strings,
`with-interface` carries interface types, `id` carries device IDs,
conditions carry their source names. -/
inductive AttrClause where
  | name (pos : Nat) (op : Option SetOperator) (values : List String)
  | hash (pos : Nat) (op : Option SetOperator) (values : List String)
  | parentHash (pos : Nat) (op : Option SetOperator) (values : List String)
  | serial (pos : Nat) (op : Option SetOperator) (values : List String)
  | viaPort (pos : Nat) (op : Option SetOperator) (values : List String)
  | withInterface (pos : Nat) (op : Option SetOperator) (values : List USBInterfaceType)
  | idAttr (pos : Nat) (op : Option SetOperator) (values : List USBDeviceID)
  | conditions (pos : Nat) (op : Option SetOperator) (values : List String)
  deriving DecidableEq, Repr

/-- The keyword of a clause. -/
def AttrClause.kind : AttrClause → AttrKind
  | AttrClause.name _ _ _ => AttrKind.name
  | AttrClause.hash _ _ _ => AttrKind.hash
  | AttrClause.parentHash _ _ _ => AttrKind.parentHash
  | AttrClause.serial _ _ _ => AttrKind.serial
  | AttrClause.viaPort _ _ _ => AttrKind.viaPort
  | AttrClause.withInterface _ _ _ => AttrKind.withInterface
  | AttrClause.idAttr _ _ _ => AttrKind.idAttr
  | AttrClause.conditions _ _ _ => AttrKind.conditions

/-- Whether the rule's attribute for a keyword is still empty
(`!rule.attributeX().empty()` is the duplicate guard in each
`X_actions<str_X>::apply`). -/
def attrUnset (r : ParsedRule) : AttrKind → Bool
  | AttrKind.name => r.attributeName.isUnset
  | AttrKind.hash => r.attributeHash.isUnset
  | AttrKind.parentHash => r.attributeParentHash.isUnset
  | AttrKind.serial => r.attributeSerial.isUnset
  | AttrKind.viaPort => r.attributeViaPort.isUnset
  | AttrKind.withInterface => r.attributeWithInterface.isUnset
  | AttrKind.idAttr => r.attributeDeviceID.isUnset
  | AttrKind.conditions => r.attributeConditions.isUnset

/-- The duplicate-attribute message thrown by each attribute's keyword
action. -/
def dupMessage : AttrKind → String
  | AttrKind.name => "name attribute already defined"
  | AttrKind.hash => "hash attribute already defined"
  | AttrKind.parentHash => "parent-hash attribute already defined"
  | AttrKind.serial => "serial attribute already defined"
  | AttrKind.viaPort => "via-port attribute already defined"
  | AttrKind.withInterface => "with-interface attribute already defined"
  | AttrKind.idAttr => "id attribute already defined"
  | AttrKind.conditions => "conditions already defined"

/-- Run one attribute's actions after its duplicate guard passed: the
optional `multiset_operator` action, then one value action per value. -/
def applyOpValues {α : Type} (a : RuleAttribute α) (op : Option SetOperator)
    (values : List α) : RuleAttribute α :=
  let a1 := match op with
    | some o => a.setSetOperator o
    | none => a
  values.foldl RuleAttribute.append a1

/-- Process one attribute clause against the rule under construction,
mirroring the pegtl action order: the keyword action first throws
`<attr> already defined` at the keyword's position when the attribute is
already non-empty, then the operator and value actions run. -/
def applyClause (r : ParsedRule) : AttrClause → Except (String × Nat) ParsedRule
  | AttrClause.name pos op values =>
    if r.attributeName.isUnset then
      Except.ok { r with attributeName := applyOpValues r.attributeName op values }
    else
      Except.error (dupMessage AttrKind.name, pos)
  | AttrClause.hash pos op values =>
    if r.attributeHash.isUnset then
      Except.ok { r with attributeHash := applyOpValues r.attributeHash op values }
    else
      Except.error (dupMessage AttrKind.hash, pos)
  | AttrClause.parentHash pos op values =>
    if r.attributeParentHash.isUnset then
      Except.ok { r with attributeParentHash := applyOpValues r.attributeParentHash op values }
    else
      Except.error (dupMessage AttrKind.parentHash, pos)
  | AttrClause.serial pos op values =>
    if r.attributeSerial.isUnset then
      Except.ok { r with attributeSerial := applyOpValues r.attributeSerial op values }
    else
      Except.error (dupMessage AttrKind.serial, pos)
  | AttrClause.viaPort pos op values =>
    if r.attributeViaPort.isUnset then
      Except.ok { r with attributeViaPort := applyOpValues r.attributeViaPort op values }
    else
      Except.error (dupMessage AttrKind.viaPort, pos)
  | AttrClause.withInterface pos op values =>
    if r.attributeWithInterface.isUnset then
      Except.ok { r with attributeWithInterface := applyOpValues r.attributeWithInterface op values }
    else
      Except.error (dupMessage AttrKind.withInterface, pos)
  | AttrClause.idAttr pos op values =>
    if r.attributeDeviceID.isUnset then
      Except.ok { r with attributeDeviceID := applyOpValues r.attributeDeviceID op values }
    else
      Except.error (dupMessage AttrKind.idAttr, pos)
  | AttrClause.conditions pos op values =>
    if r.attributeConditions.isUnset then
      Except.ok { r with attributeConditions := applyOpValues r.attributeConditions op values }
    else
      Except.error (dupMessage AttrKind.conditions, pos)

/-- Process a rule text's attribute clauses left to right; the first
thrown parse error aborts the parse. -/
def applyClauses : ParsedRule → List AttrClause → Except (String × Nat) ParsedRule
  | r, [] => Except.ok r
  | r, c :: cs =>
    match applyClause r c with
    | Except.error e => Except.error e
    | Except.ok r' => applyClauses r' cs

/-- Parse a rule text given as its target and attribute clauses. -/
def parseRuleText (target : Target) (cs : List AttrClause) :
    Except (String × Nat) ParsedRule :=
  applyClauses (initRule target) cs

/-- Whether a parse outcome is one of the duplicate-attribute errors. -/
def isDuplicateAttributeError (res : Except (String × Nat) ParsedRule) : Bool :=
  match res with
  | Except.error (msg, _) =>
    decide (msg = dupMessage AttrKind.name) ||
    decide (msg = dupMessage AttrKind.hash) ||
    decide (msg = dupMessage AttrKind.parentHash) ||
    decide (msg = dupMessage AttrKind.serial) ||
    decide (msg = dupMessage AttrKind.viaPort) ||
    decide (msg = dupMessage AttrKind.withInterface) ||
    decide (msg = dupMessage AttrKind.idAttr) ||
    decide (msg = dupMessage AttrKind.conditions)
  | Except.ok _ => false

/-- Number of clauses of a given keyword in a rule text. -/
def countKind (k : AttrKind) (cs : List AttrClause) : Nat :=
  (cs.filter (fun c => decide (c.kind = k))).length

/-- The `FixedStateCondition::update(rule)`: return the state fixed at
construction, ignoring the rule. -/
def FixedStateCondition.update (c : FixedStateCondition) (rule : ParsedRule) : Bool :=
  c.state

/-- True exactly on backend write events. -/
def isSysWriteEvt : Evt → Bool
  | Evt.sysWrite _ _ => true
  | _ => false

/-- True exactly on outbound notification events. -/
def isNotifyEvt : Evt → Bool
  | Evt.notify _ _ => true
  | _ => false

/-- Number of REJECT applications (writes of 1 to `{sys_path}/remove`)
in a trace. -/
def rejectWriteCount (sys_path : String) (tr : List Evt) : Nat :=
  (tr.filter (fun e => decide (e = Evt.sysWrite (sys_path ++ "/" ++ "remove") 1))).length

theorem alistLookup_set_self {α β : Type} [DecidableEq α]
    (l : List (α × β)) (key : α) (value : β) :
    alistLookup (alistSet l key value) key = some value := by
  simp [alistSet, alistLookup]

theorem alistLookup_erase_self {α β : Type} [DecidableEq α]
    (l : List (α × β)) (key : α) :
    alistLookup (alistErase l key) key = none := by
  induction l with
  | nil => rfl
  | cons p rest ih =>
    by_cases h : p.1 = key
    · simpa [alistErase, h] using ih
    · simpa [alistErase, alistLookup, h] using ih

/-- C10: `FixedStateCondition::update(r)` returns exactly the boolean
state fixed at construction, for every rule argument; the condition named
`"true"` always evaluates to true and the one named `"false"` always to
false, independent of the rule or any external state. -/
theorem c10_fixed_state_condition (state negated : Bool) (rule : ParsedRule) :
    (FixedStateCondition.make state negated).update rule = state
    ∧ ((FixedStateCondition.make state negated).name = "true" →
        (FixedStateCondition.make state negated).update rule = true)
    ∧ ((FixedStateCondition.make state negated).name = "false" →
        (FixedStateCondition.make state negated).update rule = false) := by
  cases state <;>
    refine ⟨rfl, ?_, ?_⟩ <;> intro h <;>
    first
      | rfl
      | (exfalso; simp [FixedStateCondition.make] at h)

/-- C10 witness: at concrete conditions and a concrete rule. -/
theorem c10_fixed_state_condition_witness :
    (FixedStateCondition.make true false).update (initRule Target.Allow) = true
    ∧ (FixedStateCondition.make false true).update (initRule Target.Block) = false :=
  ⟨(c10_fixed_state_condition true false (initRule Target.Allow)).2.1 rfl,
   (c10_fixed_state_condition false true (initRule Target.Block)).2.2 rfl⟩

/-- C2: the constructor does set the system-wide default to blocked, but
the destructor writes the constant `authorized` default
(`setDefaultBlockedState(false)`, with `FIXME: Set to previous state` in
the source) instead of restoring the recorded prior state — nothing is
recorded, and a prior blocked default (`authorizedDefault = false`) comes
back authorized. -/
theorem c2_shutdown_default_constant :
    (managerStartupDefault { authorizedDefault := false }).authorizedDefault = false
    ∧ (managerShutdownDefault
        (managerStartupDefault { authorizedDefault := false })).authorizedDefault = true
    ∧ (managerShutdownDefault
        (managerStartupDefault { authorizedDefault := true })).authorizedDefault = true := by
  decide

/-- C6 counterexample: in an iteration whose only readable fd is the
wake-up fd (counter 1, no udev events), the worker leaves the eventfd
counter untouched — it is not drained to 0 as the claim states. -/
theorem c6_no_drain_counterexample :
    (threadIter { stopRequested := false, eventfdCounter := 1, pendingUdev := 0 }).eventfdCounter ≠ 0
    ∧ threadIter { stopRequested := false, eventfdCounter := 1, pendingUdev := 0 } =
        { stopRequested := false, eventfdCounter := 1, pendingUdev := 0 } := by
  decide

/-- C6 amended: in every iteration in which the wake-up fd is readable
the worker leaves the whole state (eventfd counter included) unchanged
and re-checks the stop flag; setting the stop flag and then writing one
wake-up byte (`stop()`) makes the worker exit at the very next stop-flag
check. -/
theorem c6_stop_within_one_iteration (s : WorkerState) :
    (s.eventfdCounter > 0 → threadIter s = s)
    ∧ threadLoop 1 (managerStop s) = some (managerStop s) := by
  constructor
  · intro h
    simp [threadIter, h]
  · simp [threadLoop, managerStop]

/-- C6 witness: a worker with a pending wake-up byte and queued udev
events skips without touching state, and `stop()` makes the loop exit. -/
theorem c6_stop_within_one_iteration_witness :
    threadIter { stopRequested := false, eventfdCounter := 1, pendingUdev := 2 } =
      { stopRequested := false, eventfdCounter := 1, pendingUdev := 2 }
    ∧ threadLoop 1 (managerStop { stopRequested := false, eventfdCounter := 1, pendingUdev := 2 }) =
      some (managerStop { stopRequested := false, eventfdCounter := 1, pendingUdev := 2 }) :=
  ⟨(c6_stop_within_one_iteration _).1 (by decide),
   (c6_stop_within_one_iteration _).2⟩

/-- C5: on the enumeration-at-startup presence path a failed device
construction leaves the manager state unchanged, performs no backend
write at all (in particular no REJECT), and emits no notification. -/
theorem c5_presence_failure_no_reject (st : ManagerState) (sys_path : String)
    (ctor : Except String LinuxDevice) (e : String)
    (h : ctor = Except.error e) :
    (processDevicePresence st sys_path ctor).2.1 = st
    ∧ ((processDevicePresence st sys_path ctor).2.2.filter isSysWriteEvt) = []
    ∧ ((processDevicePresence st sys_path ctor).2.2.filter isNotifyEvt) = [] := by
  subst h
  exact ⟨rfl, rfl, rfl⟩

/-- C5 witness: a concrete failing construction on a concrete state. -/
theorem c5_presence_failure_no_reject_witness :
    (processDevicePresence { devices := [], syspathMap := [] } "/sys/devices/usb1/1-1"
        (Except.error "DescriptorTooShort")).2.1 = { devices := [], syspathMap := [] }
    ∧ ((processDevicePresence { devices := [], syspathMap := [] } "/sys/devices/usb1/1-1"
        (Except.error "DescriptorTooShort")).2.2.filter isSysWriteEvt) = []
    ∧ ((processDevicePresence { devices := [], syspathMap := [] } "/sys/devices/usb1/1-1"
        (Except.error "DescriptorTooShort")).2.2.filter isNotifyEvt) = [] :=
  c5_presence_failure_no_reject _ _ _ "DescriptorTooShort" rfl

/-- C1: on the hotplug `add` path, a failed device construction leaves
the manager state unchanged, applies REJECT (one write of 1 to
`{sys_path}/remove`) exactly once, and emits no notification; a
successful construction registers the device in both maps, emits
`DeviceInserted`, and performs no backend write at all. -/
theorem c1_insertion_reject_on_failure (writeOk : String → Nat → Bool)
    (st : ManagerState) (sys_path : String) (ctor : Except String LinuxDevice) :
    (∀ e, ctor = Except.error e →
      (processDeviceInsertion writeOk st sys_path ctor).2.1 = st
      ∧ rejectWriteCount sys_path (processDeviceInsertion writeOk st sys_path ctor).2.2 = 1
      ∧ ((processDeviceInsertion writeOk st sys_path ctor).2.2.filter isNotifyEvt) = [])
    ∧ (∀ d, ctor = Except.ok d →
      alistLookup (processDeviceInsertion writeOk st sys_path ctor).2.1.devices d.id = some d
      ∧ alistLookup (processDeviceInsertion writeOk st sys_path ctor).2.1.syspathMap d.syspath
          = some d.id
      ∧ Evt.notify NotifyKind.Inserted d.id ∈ (processDeviceInsertion writeOk st sys_path ctor).2.2
      ∧ ((processDeviceInsertion writeOk st sys_path ctor).2.2.filter isSysWriteEvt) = []) := by
  constructor
  · intro e he
    subst he
    simp only [processDeviceInsertion, sysioApplyTarget, targetFileValue]
    split <;>
      simp [rejectWriteCount, List.filter, isNotifyEvt]
  · intro d hd
    subst hd
    simp [processDeviceInsertion, insertDevice, alistLookup_set_self, isSysWriteEvt,
      List.filter]

/-- C1 witness: a failing construction on an empty manager, and a
successful one. -/
theorem c1_insertion_reject_on_failure_witness :
    ((processDeviceInsertion (fun _ _ => true) { devices := [], syspathMap := [] }
        "/sys/devices/usb1/1-1" (Except.error "DescriptorTooShort")).2.1
      = { devices := [], syspathMap := [] }
     ∧ rejectWriteCount "/sys/devices/usb1/1-1"
        (processDeviceInsertion (fun _ _ => true) { devices := [], syspathMap := [] }
          "/sys/devices/usb1/1-1" (Except.error "DescriptorTooShort")).2.2 = 1
     ∧ ((processDeviceInsertion (fun _ _ => true) { devices := [], syspathMap := [] }
          "/sys/devices/usb1/1-1" (Except.error "DescriptorTooShort")).2.2.filter isNotifyEvt)
        = [])
    ∧ (Evt.notify NotifyKind.Inserted 7 ∈
        (processDeviceInsertion (fun _ _ => true) { devices := [], syspathMap := [] }
          "/sys/devices/usb1/1-1"
          (Except.ok { id := 7, syspath := "/sys/devices/usb1/1-1", port := "1-1",
                       name := "", serial := "", interfaceTypes := [],
                       target := Target.Block })).2.2) :=
  ⟨(c1_insertion_reject_on_failure (fun _ _ => true) { devices := [], syspathMap := [] }
      "/sys/devices/usb1/1-1" (Except.error "DescriptorTooShort")).1
      "DescriptorTooShort" rfl,
   ((c1_insertion_reject_on_failure (fun _ _ => true) { devices := [], syspathMap := [] }
      "/sys/devices/usb1/1-1"
      (Except.ok { id := 7, syspath := "/sys/devices/usb1/1-1", port := "1-1",
                   name := "", serial := "", interfaceTypes := [],
                   target := Target.Block })).2 _ rfl).2.2.1⟩

/-- C9: `removeDevice(syspath)` with an unknown syspath throws and leaves
the state unchanged; with a registered syspath whose ID is in the device
map it returns that device and erases both the syspath entry and the
device entry. -/
theorem c9_remove_device_atomic (st : ManagerState) (syspath : String) :
    (alistLookup st.syspathMap syspath = none →
      removeDevice st syspath =
        (Except.error "Unknown device, cannot remove from syspath map", st))
    ∧ (∀ id d, alistLookup st.syspathMap syspath = some id →
        alistLookup st.devices id = some d →
        (removeDevice st syspath).1 = Except.ok d
        ∧ alistLookup (removeDevice st syspath).2.syspathMap syspath = none
        ∧ alistLookup (removeDevice st syspath).2.devices id = none) := by
  constructor
  · intro h
    simp [removeDevice, h]
  · intro id d h1 h2
    simp [removeDevice, h1, baseRemoveDevice, h2, alistLookup_erase_self]

/-- C9 witness: a one-device manager, on its syspath and on an unknown
syspath. -/
theorem c9_remove_device_atomic_witness :
    (removeDevice
        { devices := [(3, { id := 3, syspath := "/sys/devices/usb1/1-2", port := "1-2",
                            name := "", serial := "", interfaceTypes := [],
                            target := Target.Allow })],
          syspathMap := [("/sys/devices/usb1/1-2", 3)] } "/sys/nope")
      = (Except.error "Unknown device, cannot remove from syspath map",
         { devices := [(3, { id := 3, syspath := "/sys/devices/usb1/1-2", port := "1-2",
                             name := "", serial := "", interfaceTypes := [],
                             target := Target.Allow })],
           syspathMap := [("/sys/devices/usb1/1-2", 3)] })
    ∧ (removeDevice
        { devices := [(3, { id := 3, syspath := "/sys/devices/usb1/1-2", port := "1-2",
                            name := "", serial := "", interfaceTypes := [],
                            target := Target.Allow })],
          syspathMap := [("/sys/devices/usb1/1-2", 3)] } "/sys/devices/usb1/1-2").1
      = Except.ok { id := 3, syspath := "/sys/devices/usb1/1-2", port := "1-2",
                    name := "", serial := "", interfaceTypes := [],
                    target := Target.Allow } :=
  ⟨(c9_remove_device_atomic _ "/sys/nope").1 (by decide),
   ((c9_remove_device_atomic _ "/sys/devices/usb1/1-2").2 3 _ (by decide) (by decide)).1⟩

/-- C3: policy application for (device, target) performs the backend
operation and the cached-target update strictly between acquiring and
releasing the device's mutex; a backend failure is surfaced unchanged to
the caller with the manager state (hence the cached target) untouched,
and the cached target becomes `target` exactly when the backend operation
succeeds. -/
theorem c3_apply_device_policy (writeOk : String → Nat → Bool) (st : ManagerState)
    (id : Nat) (target : Target) (device : LinuxDevice)
    (hdev : getDevice st id = Except.ok device) :
    (∀ e, (sysioApplyTarget writeOk device.syspath target).1 = Except.error e →
        (applyDevicePolicy writeOk st id target).1 = Except.error e
        ∧ (applyDevicePolicy writeOk st id target).2.1 = st)
    ∧ ((sysioApplyTarget writeOk device.syspath target).1 = Except.ok () →
        (applyDevicePolicy writeOk st id target).1 =
          Except.ok { device with target := target }
        ∧ getDevice (applyDevicePolicy writeOk st id target).2.1 id =
          Except.ok { device with target := target }
        ∧ (applyDevicePolicy writeOk st id target).2.2 =
          Evt.lock id :: (sysioApplyTarget writeOk device.syspath target).2
            ++ [Evt.setTarget id target, Evt.unlock id]) := by
  constructor
  · intro e he
    simp [applyDevicePolicy, hdev, he]
  · intro hok
    have h1 : applyDevicePolicy writeOk st id target =
        (Except.ok { device with target := target },
         { st with devices := alistSet st.devices id { device with target := target } },
         Evt.lock id :: (sysioApplyTarget writeOk device.syspath target).2
           ++ [Evt.setTarget id target, Evt.unlock id]) := by
      simp [applyDevicePolicy, hdev, hok]
    rw [h1]
    refine ⟨rfl, ?_, rfl⟩
    simp [getDevice, alistLookup_set_self]

/-- A registered device and manager state used by concrete instantiations
of the policy-application theorems. -/
def c3dev : LinuxDevice :=
  { id := 1, syspath := "/sys/devices/usb1/1-3", port := "1-3", name := "",
    serial := "", interfaceTypes := [], target := Target.Block }

/-- A manager holding exactly `c3dev` under ID 1. -/
def c3st : ManagerState :=
  { devices := [(1, c3dev)], syspathMap := [("/sys/devices/usb1/1-3", 1)] }

/-- C3 witness: on a failing backend the error surfaces and the state is
unchanged; on a succeeding backend the cached target becomes Allow. -/
theorem c3_apply_device_policy_witness :
    ((applyDevicePolicy (fun _ _ => false) c3st 1 Target.Allow).1 =
        Except.error "sysio write failed"
     ∧ (applyDevicePolicy (fun _ _ => false) c3st 1 Target.Allow).2.1 = c3st)
    ∧ (applyDevicePolicy (fun _ _ => true) c3st 1 Target.Allow).1 =
        Except.ok { c3dev with target := Target.Allow } :=
  ⟨(c3_apply_device_policy (fun _ _ => false) c3st 1 Target.Allow c3dev
      (by decide)).1 "sysio write failed" (by decide),
   ((c3_apply_device_policy (fun _ _ => true) c3st 1 Target.Allow c3dev
      (by decide)).2 (by decide)).1⟩

/-- C8: `allowDevice`, `blockDevice` and `rejectDevice` raise their hook
only after the backend write and the cached-target update succeeded: on
an error from `applyDevicePolicy` the trace contains no notification, and
on success the trace is exactly lock, backend write, cached-target
update, unlock, then the corresponding notification. -/
theorem c8_notification_after_success (writeOk : String → Nat → Bool)
    (st : ManagerState) (id : Nat) :
    ((∀ e, (allowDevice writeOk st id).1 = Except.error e →
        ((allowDevice writeOk st id).2.2.filter isNotifyEvt) = [])
     ∧ (∀ d, (allowDevice writeOk st id).1 = Except.ok d →
        (allowDevice writeOk st id).2.2 =
          [Evt.lock id, Evt.sysWrite (d.syspath ++ "/" ++ "authorized") 1,
           Evt.setTarget id Target.Allow, Evt.unlock id,
           Evt.notify NotifyKind.Allowed d.id]))
    ∧ ((∀ e, (blockDevice writeOk st id).1 = Except.error e →
        ((blockDevice writeOk st id).2.2.filter isNotifyEvt) = [])
     ∧ (∀ d, (blockDevice writeOk st id).1 = Except.ok d →
        (blockDevice writeOk st id).2.2 =
          [Evt.lock id, Evt.sysWrite (d.syspath ++ "/" ++ "authorized") 0,
           Evt.setTarget id Target.Block, Evt.unlock id,
           Evt.notify NotifyKind.Blocked d.id]))
    ∧ ((∀ e, (rejectDevice writeOk st id).1 = Except.error e →
        ((rejectDevice writeOk st id).2.2.filter isNotifyEvt) = [])
     ∧ (∀ d, (rejectDevice writeOk st id).1 = Except.ok d →
        (rejectDevice writeOk st id).2.2 =
          [Evt.lock id, Evt.sysWrite (d.syspath ++ "/" ++ "remove") 1,
           Evt.setTarget id Target.Reject, Evt.unlock id,
           Evt.notify NotifyKind.Rejected d.id])) := by
  refine ⟨⟨?_, ?_⟩, ⟨?_, ?_⟩, ⟨?_, ?_⟩⟩
  · intro e he
    rcases hg : getDevice st id with e0 | device
    · simp [allowDevice, applyDevicePolicy, hg, isNotifyEvt]
    · cases hw : writeOk (device.syspath ++ "/" ++ "authorized") 1
      · simp [allowDevice, applyDevicePolicy, sysioApplyTarget, targetFileValue,
          hg, hw, isNotifyEvt, List.filter]
      · simp [allowDevice, applyDevicePolicy, sysioApplyTarget, targetFileValue,
          hg, hw] at he
  · intro d hd
    rcases hg : getDevice st id with e0 | device
    · simp [allowDevice, applyDevicePolicy, hg] at hd
    · cases hw : writeOk (device.syspath ++ "/" ++ "authorized") 1
      · simp [allowDevice, applyDevicePolicy, sysioApplyTarget, targetFileValue,
          hg, hw] at hd
      · simp [allowDevice, applyDevicePolicy, sysioApplyTarget, targetFileValue,
          hg, hw] at hd ⊢
        subst hd
        simp
  · intro e he
    rcases hg : getDevice st id with e0 | device
    · simp [blockDevice, applyDevicePolicy, hg, isNotifyEvt]
    · cases hw : writeOk (device.syspath ++ "/" ++ "authorized") 0
      · simp [blockDevice, applyDevicePolicy, sysioApplyTarget, targetFileValue,
          hg, hw, isNotifyEvt, List.filter]
      · simp [blockDevice, applyDevicePolicy, sysioApplyTarget, targetFileValue,
          hg, hw] at he
  · intro d hd
    rcases hg : getDevice st id with e0 | device
    · simp [blockDevice, applyDevicePolicy, hg] at hd
    · cases hw : writeOk (device.syspath ++ "/" ++ "authorized") 0
      · simp [blockDevice, applyDevicePolicy, sysioApplyTarget, targetFileValue,
          hg, hw] at hd
      · simp [blockDevice, applyDevicePolicy, sysioApplyTarget, targetFileValue,
          hg, hw] at hd ⊢
        subst hd
        simp
  · intro e he
    rcases hg : getDevice st id with e0 | device
    · simp [rejectDevice, applyDevicePolicy, hg, isNotifyEvt]
    · cases hw : writeOk (device.syspath ++ "/" ++ "remove") 1
      · simp [rejectDevice, applyDevicePolicy, sysioApplyTarget, targetFileValue,
          hg, hw, isNotifyEvt, List.filter]
      · simp [rejectDevice, applyDevicePolicy, sysioApplyTarget, targetFileValue,
          hg, hw] at he
  · intro d hd
    rcases hg : getDevice st id with e0 | device
    · simp [rejectDevice, applyDevicePolicy, hg] at hd
    · cases hw : writeOk (device.syspath ++ "/" ++ "remove") 1
      · simp [rejectDevice, applyDevicePolicy, sysioApplyTarget, targetFileValue,
          hg, hw] at hd
      · simp [rejectDevice, applyDevicePolicy, sysioApplyTarget, targetFileValue,
          hg, hw] at hd ⊢
        subst hd
        simp

/-- C8 witness: a failing and a succeeding policy application on a
concrete one-device manager. -/
theorem c8_notification_after_success_witness :
    ((allowDevice (fun _ _ => false) c3st 1).2.2.filter isNotifyEvt) = []
    ∧ (allowDevice (fun _ _ => true) c3st 1).2.2 =
        [Evt.lock 1, Evt.sysWrite ("/sys/devices/usb1/1-3" ++ "/" ++ "authorized") 1,
         Evt.setTarget 1 Target.Allow, Evt.unlock 1,
         Evt.notify NotifyKind.Allowed 1] :=
  ⟨(c8_notification_after_success (fun _ _ => false) c3st 1).1.1
      "sysio write failed" (by decide),
   (c8_notification_after_success (fun _ _ => true) c3st 1).1.2
      { c3dev with target := Target.Allow } (by decide)⟩

/-- A root hub device: port `"usb1"`, one interface type `09:00:00`. -/
def c4dev : LinuxDevice :=
  { id := 1, syspath := "/sys/devices/pci0000/usb1", port := "usb1",
    name := "xHCI Host Controller", serial := "",
    interfaceTypes := [{ ifClass := some 0x09, ifSubClass := some 0x00,
                         ifProtocol := some 0x00 }],
    target := Target.Allow }

/-- C4 counterexample: the claim's applies-to direction (every
non-wildcard component of the device's interface type equals the
pattern's) fails on the concrete root hub `c4dev` — its protocol byte
`00` is non-wildcard while the pattern's protocol is `*` — yet the code
classifies `c4dev` as a controller, so the claimed equivalence is false
at `c4dev`. -/
theorem c4_controller_claim_counterexample :
    ¬ (c4dev.isController = true ↔
        (c4dev.port.take 3 = "usb"
         ∧ c4dev.interfaceTypes.length = 1
         ∧ ∀ t ∈ c4dev.interfaceTypes, t.appliesTo hub_interface = true)) := by
  decide

/-- C4 amended: a device is classified as a controller iff its port
begins with `"usb"`, it has exactly one interface type, and the hub
pattern `09:00:*` applies-to that sole interface type (every non-wildcard
component of the pattern equals the device type's corresponding
component). -/
theorem c4_controller_iff (d : LinuxDevice) :
    d.isController = true ↔
      (d.port.take 3 = "usb"
       ∧ d.interfaceTypes.length = 1
       ∧ ∀ t ∈ d.interfaceTypes, hub_interface.appliesTo t = true) := by
  cases h : d.interfaceTypes with
  | nil => simp [LinuxDevice.isController, h]
  | cons t ts =>
    cases ts with
    | nil =>
      by_cases hp : d.port.take 3 = "usb" <;>
        simp [LinuxDevice.isController, h, hp]
    | cons t2 ts2 => simp [LinuxDevice.isController, h]

theorem countKind_cons (k : AttrKind) (c : AttrClause) (cs : List AttrClause) :
    countKind k (c :: cs) =
      if c.kind = k then countKind k cs + 1 else countKind k cs := by
  simp only [countKind, List.filter_cons]
  by_cases h : c.kind = k <;> simp [h]

theorem countKind_append (k : AttrKind) (cs1 cs2 : List AttrClause) :
    countKind k (cs1 ++ cs2) = countKind k cs1 + countKind k cs2 := by
  simp [countKind, List.filter_append]

theorem initRule_attrUnset (t : Target) (k : AttrKind) :
    attrUnset (initRule t) k = true := by
  cases k <;> rfl

theorem applyOpValues_values {α : Type} (a : RuleAttribute α)
    (op : Option SetOperator) (values : List α) :
    (applyOpValues a op values).values = a.values ++ values := by
  have h : ∀ (vs : List α) (b : RuleAttribute α),
      (vs.foldl RuleAttribute.append b).values = b.values ++ vs := by
    intro vs
    induction vs with
    | nil => intro b; simp
    | cons v vs ih =>
      intro b
      simp [List.foldl, ih, RuleAttribute.append]
  cases op <;> simp [applyOpValues, h, RuleAttribute.setSetOperator]

theorem applyClause_ok_of_unset (r : ParsedRule) (c : AttrClause)
    (h : attrUnset r c.kind = true) :
    ∃ r', applyClause r c = Except.ok r'
      ∧ ∀ k, c.kind ≠ k → attrUnset r' k = attrUnset r k := by
  cases c with
  | name p op vs =>
    simp only [AttrClause.kind, attrUnset] at h
    refine ⟨{ r with attributeName := applyOpValues r.attributeName op vs },
      by simp [applyClause, h], ?_⟩
    intro k hk
    cases k <;> simp_all [attrUnset, AttrClause.kind]
  | hash p op vs =>
    simp only [AttrClause.kind, attrUnset] at h
    refine ⟨{ r with attributeHash := applyOpValues r.attributeHash op vs },
      by simp [applyClause, h], ?_⟩
    intro k hk
    cases k <;> simp_all [attrUnset, AttrClause.kind]
  | parentHash p op vs =>
    simp only [AttrClause.kind, attrUnset] at h
    refine ⟨{ r with attributeParentHash := applyOpValues r.attributeParentHash op vs },
      by simp [applyClause, h], ?_⟩
    intro k hk
    cases k <;> simp_all [attrUnset, AttrClause.kind]
  | serial p op vs =>
    simp only [AttrClause.kind, attrUnset] at h
    refine ⟨{ r with attributeSerial := applyOpValues r.attributeSerial op vs },
      by simp [applyClause, h], ?_⟩
    intro k hk
    cases k <;> simp_all [attrUnset, AttrClause.kind]
  | viaPort p op vs =>
    simp only [AttrClause.kind, attrUnset] at h
    refine ⟨{ r with attributeViaPort := applyOpValues r.attributeViaPort op vs },
      by simp [applyClause, h], ?_⟩
    intro k hk
    cases k <;> simp_all [attrUnset, AttrClause.kind]
  | withInterface p op vs =>
    simp only [AttrClause.kind, attrUnset] at h
    refine ⟨{ r with attributeWithInterface := applyOpValues r.attributeWithInterface op vs },
      by simp [applyClause, h], ?_⟩
    intro k hk
    cases k <;> simp_all [attrUnset, AttrClause.kind]
  | idAttr p op vs =>
    simp only [AttrClause.kind, attrUnset] at h
    refine ⟨{ r with attributeDeviceID := applyOpValues r.attributeDeviceID op vs },
      by simp [applyClause, h], ?_⟩
    intro k hk
    cases k <;> simp_all [attrUnset, AttrClause.kind]
  | conditions p op vs =>
    simp only [AttrClause.kind, attrUnset] at h
    refine ⟨{ r with attributeConditions := applyOpValues r.attributeConditions op vs },
      by simp [applyClause, h], ?_⟩
    intro k hk
    cases k <;> simp_all [attrUnset, AttrClause.kind]

theorem applyClauses_cons_ok (r r1 : ParsedRule) (c : AttrClause)
    (cs : List AttrClause) (h : applyClause r c = Except.ok r1) :
    applyClauses r (c :: cs) = applyClauses r1 cs := by
  simp [applyClauses, h]

theorem applyClauses_cons_error (r : ParsedRule) (c : AttrClause)
    (cs : List AttrClause) (e : String × Nat)
    (h : applyClause r c = Except.error e) :
    applyClauses r (c :: cs) = Except.error e := by
  simp [applyClauses, h]

theorem applyClauses_append_ok :
    ∀ (cs1 : List AttrClause) (r r1 : ParsedRule) (cs2 : List AttrClause),
    applyClauses r cs1 = Except.ok r1 →
    applyClauses r (cs1 ++ cs2) = applyClauses r1 cs2 := by
  intro cs1
  induction cs1 with
  | nil =>
    intro r r1 cs2 h
    simp [applyClauses] at h
    subst h
    rfl
  | cons c cs ih =>
    intro r r1 cs2 h
    cases hc : applyClause r c with
    | error e =>
      rw [applyClauses_cons_error r c cs e hc] at h
      exact absurd h (by simp)
    | ok r2 =>
      rw [applyClauses_cons_ok r r2 c cs hc] at h
      rw [List.cons_append, applyClauses_cons_ok r r2 c (cs ++ cs2) hc]
      exact ih r2 r1 cs2 h

theorem applyClauses_ok_of_unset :
    ∀ (cs : List AttrClause) (r : ParsedRule),
    (∀ k, countKind k cs ≤ 1) →
    (∀ k, 0 < countKind k cs → attrUnset r k = true) →
    ∃ r', applyClauses r cs = Except.ok r'
      ∧ ∀ k, countKind k cs = 0 → attrUnset r' k = attrUnset r k := by
  intro cs
  induction cs with
  | nil =>
    intro r _ _
    exact ⟨r, rfl, fun k _ => rfl⟩
  | cons c cs ih =>
    intro r hcount hunset
    have hck : attrUnset r c.kind = true := by
      apply hunset
      rw [countKind_cons]
      simp
    obtain ⟨r1, hr1, hpres1⟩ := applyClause_ok_of_unset r c hck
    have hzero : countKind c.kind cs = 0 := by
      have hc := hcount c.kind
      rw [countKind_cons] at hc
      simp at hc
      omega
    have hcount' : ∀ k, countKind k cs ≤ 1 := by
      intro k
      have hc := hcount k
      rw [countKind_cons] at hc
      by_cases h : c.kind = k
      · simp [h] at hc
        omega
      · simpa [h] using hc
    have hunset' : ∀ k, 0 < countKind k cs → attrUnset r1 k = true := by
      intro k hk
      by_cases h : c.kind = k
      · subst h
        omega
      · rw [hpres1 k h]
        apply hunset
        rw [countKind_cons]
        simp [h]
        omega
    obtain ⟨r2, hr2, hpres2⟩ := ih r1 hcount' hunset'
    refine ⟨r2, ?_, ?_⟩
    · rw [applyClauses_cons_ok r r1 c cs hr1]
      exact hr2
    · intro k hk0
      rw [countKind_cons] at hk0
      by_cases h : c.kind = k
      · simp [h] at hk0
      · simp [h] at hk0
        rw [hpres2 k hk0, hpres1 k h]

theorem applyClause_name_ok (r : ParsedRule) (p : Nat) (op : Option SetOperator)
    (vs : List String) (h : r.attributeName.isUnset = true) :
    applyClause r (AttrClause.name p op vs) =
      Except.ok { r with attributeName := applyOpValues r.attributeName op vs } := by
  simp [applyClause, h]

theorem applyClause_name_dup (r : ParsedRule) (p : Nat) (op : Option SetOperator)
    (vs : List String) (h : r.attributeName.isUnset = false) :
    applyClause r (AttrClause.name p op vs) =
      Except.error ("name attribute already defined", p) := by
  simp [applyClause, h, dupMessage]

theorem attributeName_set_after (r : ParsedRule) (op : Option SetOperator)
    (vs : List String) (hvs : vs ≠ []) :
    ({ r with attributeName := applyOpValues r.attributeName op vs } :
        ParsedRule).attributeName.isUnset = false := by
  cases vs with
  | nil => exact absurd rfl hvs
  | cons v vs' =>
    simp only [RuleAttribute.isUnset, applyOpValues_values]
    cases h : r.attributeName.values <;> simp

theorem attrUnset_name_update (r : ParsedRule) (a : RuleAttribute String)
    (k : AttrKind) (hk : k ≠ AttrKind.name) :
    attrUnset { r with attributeName := a } k = attrUnset r k := by
  cases k <;> simp_all [attrUnset]

/-- C7 counterexample: the actions fire left to right, so in
`allow serial "x" serial "y" name "a" name "b"` — a rule text in which
the `name` attribute occurs twice — the parse fails with the duplicate
error of `serial` at the second `serial` keyword (offset 17) and never
reaches the second `name` (offset 37); the claimed failure position is
therefore wrong for this text. -/
theorem c7_duplicate_name_claim_counterexample :
    parseRuleText Target.Allow
        [AttrClause.serial 6 none ["x"], AttrClause.serial 17 none ["y"],
         AttrClause.name 28 none ["a"], AttrClause.name 37 none ["b"]]
      = Except.error ("serial attribute already defined", 17)
    ∧ parseRuleText Target.Allow
        [AttrClause.serial 6 none ["x"], AttrClause.serial 17 none ["y"],
         AttrClause.name 28 none ["a"], AttrClause.name 37 none ["b"]]
      ≠ Except.error ("name attribute already defined", 37) := by
  decide

/-- C7 amended: in a rule text in which the `name` attribute occurs
twice and, up to the second `name` clause, every other named attribute
occurs at most once, the parse fails with the duplicate-attribute error
positioned at the second `name` keyword, whatever the values of either
clause (the grammar guarantees the first clause carries at least one
value); and a rule text in which every named attribute occurs at most
once never raises a duplicate-attribute error. -/
theorem c7_duplicate_name_attribute (t : Target) :
    (∀ (pre mid post : List AttrClause) (p1 p2 : Nat)
       (op1 op2 : Option SetOperator) (v1 v2 : List String),
       v1 ≠ [] →
       countKind AttrKind.name pre = 0 →
       countKind AttrKind.name mid = 0 →
       (∀ k, k ≠ AttrKind.name → countKind k (pre ++ mid) ≤ 1) →
       parseRuleText t (pre ++ AttrClause.name p1 op1 v1 ::
           (mid ++ AttrClause.name p2 op2 v2 :: post))
         = Except.error ("name attribute already defined", p2))
    ∧ (∀ cs : List AttrClause, (∀ k, countKind k cs ≤ 1) →
       isDuplicateAttributeError (parseRuleText t cs) = false) := by
  constructor
  · intro pre mid post p1 p2 op1 op2 v1 v2 hv1 hpre hmid hdup
    have hcount_pre : ∀ k, countKind k pre ≤ 1 := by
      intro k
      by_cases h : k = AttrKind.name
      · subst h
        omega
      · have hc := hdup k h
        rw [countKind_append] at hc
        omega
    obtain ⟨r1, hr1, hpres1⟩ := applyClauses_ok_of_unset pre (initRule t)
        hcount_pre (fun k _ => initRule_attrUnset t k)
    have hname1 : r1.attributeName.isUnset = true := by
      have h1 := hpres1 AttrKind.name hpre
      rw [initRule_attrUnset] at h1
      simpa [attrUnset] using h1
    have hstep2 := applyClause_name_ok r1 p1 op1 v1 hname1
    have hname2 : ({ r1 with attributeName := applyOpValues r1.attributeName op1 v1 } :
        ParsedRule).attributeName.isUnset = false :=
      attributeName_set_after r1 op1 v1 hv1
    have hcount_mid : ∀ k, countKind k mid ≤ 1 := by
      intro k
      by_cases h : k = AttrKind.name
      · subst h
        omega
      · have hc := hdup k h
        rw [countKind_append] at hc
        omega
    have hunset_mid : ∀ k, 0 < countKind k mid →
        attrUnset { r1 with attributeName := applyOpValues r1.attributeName op1 v1 } k
          = true := by
      intro k hk
      have hkname : k ≠ AttrKind.name := by
        intro hkn
        subst hkn
        omega
      rw [attrUnset_name_update r1 _ k hkname]
      have hprezero : countKind k pre = 0 := by
        have hc := hdup k hkname
        rw [countKind_append] at hc
        omega
      rw [hpres1 k hprezero]
      exact initRule_attrUnset t k
    obtain ⟨r3, hr3, hpres3⟩ := applyClauses_ok_of_unset mid
        { r1 with attributeName := applyOpValues r1.attributeName op1 v1 }
        hcount_mid hunset_mid
    have hname3 : r3.attributeName.isUnset = false := by
      have h3 := hpres3 AttrKind.name hmid
      simp only [attrUnset] at h3
      rw [h3]
      exact hname2
    unfold parseRuleText
    rw [applyClauses_append_ok pre (initRule t) r1
        (AttrClause.name p1 op1 v1 :: (mid ++ AttrClause.name p2 op2 v2 :: post)) hr1]
    rw [applyClauses_cons_ok r1
        { r1 with attributeName := applyOpValues r1.attributeName op1 v1 }
        (AttrClause.name p1 op1 v1) (mid ++ AttrClause.name p2 op2 v2 :: post) hstep2]
    rw [applyClauses_append_ok mid
        { r1 with attributeName := applyOpValues r1.attributeName op1 v1 } r3
        (AttrClause.name p2 op2 v2 :: post) hr3]
    rw [applyClauses_cons_error r3 (AttrClause.name p2 op2 v2) post
        ("name attribute already defined", p2)
        (applyClause_name_dup r3 p2 op2 v2 hname3)]
  · intro cs hcount
    obtain ⟨r', hr', _⟩ := applyClauses_ok_of_unset cs (initRule t)
        hcount (fun k _ => initRule_attrUnset t k)
    unfold parseRuleText
    rw [hr']
    rfl

/-- C7 witness: `allow name "a" name "b"` fails at the second `name`
keyword (byte offset 15), and `allow serial "s" name "a"` raises no
duplicate-attribute error. -/
theorem c7_duplicate_name_attribute_witness :
    parseRuleText Target.Allow
        [AttrClause.name 6 none ["a"], AttrClause.name 15 none ["b"]]
      = Except.error ("name attribute already defined", 15)
    ∧ isDuplicateAttributeError (parseRuleText Target.Allow
        [AttrClause.serial 6 none ["s"], AttrClause.name 17 none ["a"]]) = false :=
  ⟨(c7_duplicate_name_attribute Target.Allow).1 [] [] [] 6 15 none none ["a"] ["b"]
      (by decide) rfl rfl (fun k _ => by cases k <;> decide),
   (c7_duplicate_name_attribute Target.Allow).2
      [AttrClause.serial 6 none ["s"], AttrClause.name 17 none ["a"]]
      (fun k => by cases k <;> decide)⟩
